import Mathlib

/-!
Verification of the crosvm device-wiring / CPUID core against its
natural-language specification.

The Rust sources embedded here are:
* `x86_64/src/cpuid.rs` — the CPUID filter (`adjust_cpuid`, `filter_cpuid`);
* `arch/src/lib.rs` — PCI INTx round-robin allocation in `generate_pci_root`
  and the image loaders (`load_image_high`);
* `devices/src/virtio/input/mod.rs` — the virtio-input device
  (`virtio_input_bitmap::from_bits`, `VirtioInputConfig::write`,
  `Worker::fill_event_virtqueue`).

Machine integers are embedded as `Nat` with explicit reductions modulo
`2^32` / `2^64` at the points where the Rust code casts or can wrap.
-/

/-! ## Machine-integer helpers -/

/-- Truncation to 32 bits, the effect of a Rust `as u32` cast. -/
def toU32 (n : Nat) : Nat := n % 4294967296

/-- Bitwise complement on `u32` (Rust `!x` for `x: u32`). -/
def notU32 (n : Nat) : Nat := 4294967295 - toU32 n

/-- Bitwise complement on `u64` (Rust `!x` for `x: u64`). -/
def notU64 (n : Nat) : Nat := 18446744073709551615 - n % 18446744073709551616

/-! ## CPUID data model (`x86_64/src/cpuid.rs`) -/

/-- `std::arch::x86_64::CpuidResult`: the four CPUID output registers. -/
structure CpuidResult where
  eax : Nat
  ebx : Nat
  ecx : Nat
  edx : Nat
deriving DecidableEq, Repr

/-- `hypervisor::CpuIdEntry`: one row of a CPUID table. -/
structure CpuIdEntry where
  function : Nat
  index : Nat
  flags : Nat
  cpuid : CpuidResult
deriving DecidableEq, Repr

/-- `CpuIdContext` from `x86_64/src/cpuid.rs`.  The injectable `cpuid` /
`cpuid_count` probes are embedded as pure functions, matching the claim
hypothesis that the probes are pure and deterministic. -/
structure CpuIdContext where
  vcpu_id : Nat
  cpu_count : Nat
  no_smt : Bool
  x2apic : Bool
  tsc_deadline_timer : Bool
  apic_frequency : Nat
  tsc_frequency : Option Nat
  force_calibrated_tsc_leaf : Bool
  calibrated_tsc_leaf_required : Bool
  host_cpu_topology : Bool
  enable_pnp_data : Bool
  itmt : Bool
  cpuid_count : Nat → Nat → CpuidResult
  cpuid : Nat → CpuidResult

-- CPUID bit constants from `x86_64/src/cpuid.rs`.
def EBX_CLFLUSH_CACHELINE : Nat := 8
def EBX_CLFLUSH_SIZE_SHIFT : Nat := 8
def EBX_CPU_COUNT_SHIFT : Nat := 16
def EBX_CPUID_SHIFT : Nat := 24
def ECX_EPB_SHIFT : Nat := 3
def ECX_X2APIC_SHIFT : Nat := 21
def ECX_TSC_DEADLINE_TIMER_SHIFT : Nat := 24
def ECX_HYPERVISOR_SHIFT : Nat := 31
def EDX_HTT_SHIFT : Nat := 28
def ECX_TOPO_TYPE_SHIFT : Nat := 8
def ECX_TOPO_SMT_TYPE : Nat := 1
def ECX_TOPO_CORE_TYPE : Nat := 2
def ECX_HCFC_PERF_SHIFT : Nat := 0
def EAX_CPU_CORES_SHIFT : Nat := 26
def EDX_HYBRID_CPU_SHIFT : Nat := 15
def EAX_HWP_SHIFT : Nat := 7
def EAX_HWP_EPP_SHIFT : Nat := 10
def EAX_ITMT_SHIFT : Nat := 14
def EAX_CORE_TEMP : Nat := 0
def EAX_PKG_TEMP : Nat := 6

/-- `32 - n.leading_zeros()` building block: `u32::leading_zeros`. -/
def leading_zeros_u32 (n : Nat) : Nat := 32 - Nat.size (toU32 n)

/-- `32 - ((ctx.cpu_count - 1) as u32).leading_zeros()` from the 0xB/0x1F arm.
The `- 1` is a Rust `usize` subtraction, embedded as wrapping mod `2^64`
(the release-mode behaviour when `cpu_count = 0`). -/
def cpu_bits (cpu_count : Nat) : Nat :=
  32 - leading_zeros_u32 (toU32 ((cpu_count + 18446744073709551615) % 18446744073709551616))

/-- Modelled from the spec: `devices::tsc::fake_tsc_frequency_cpuid` is not
under src/.  Per the spec (§6), leaf 0x15 is synthesised from
`(tsc_frequency, apic_frequency)` in Intel SDM ratio form
(denominator = apic_frequency, a numerator, and the nominal crystal
frequency `tsc_frequency / ratio`).  Only its purity matters for the
properties proved here. -/
def fake_tsc_frequency_cpuid (tsc_frequency apic_frequency : Nat) : CpuidResult :=
  { eax := apic_frequency
    ebx := tsc_frequency / max 1 apic_frequency
    ecx := apic_frequency
    edx := 0 }

/-- The ECX rewriting at the top of the `function == 1` arm of
`adjust_cpuid`: hypervisor-present bit (index 0 only), X2APIC set/clear,
TSC-deadline-timer set. -/
def leaf1_ecx (ctx : CpuIdContext) (index ecx : Nat) : Nat :=
  let e1 := if index = 0 then ecx ||| (1 <<< ECX_HYPERVISOR_SHIFT) else ecx
  let e2 := if ctx.x2apic then e1 ||| (1 <<< ECX_X2APIC_SHIFT)
            else e1 &&& notU32 (1 <<< ECX_X2APIC_SHIFT)
  if ctx.tsc_deadline_timer then e2 ||| (1 <<< ECX_TSC_DEADLINE_TIMER_SHIFT) else e2

/-- The register rewriting performed by `adjust_cpuid` from
`x86_64/src/cpuid.rs`.  The Rust code only ever mutates `entry.cpuid`
(never `function`, `index` or `flags`), so the rewrite is expressed as a
function of the entry's function, index and input registers. -/
def adjust_regs (ctx : CpuIdContext) (fn idx : Nat) (r : CpuidResult) : CpuidResult :=
  if fn = 0 then
    if ctx.tsc_frequency.isSome then { r with eax := max 0x15 r.eax } else r
  else if fn = 1 then
    let ecx' := leaf1_ecx ctx idx r.ecx
    if ctx.host_cpu_topology then
      let ebx' := r.ebx ||| (EBX_CLFLUSH_CACHELINE <<< EBX_CLFLUSH_SIZE_SHIFT)
      let result := ctx.cpuid fn
      let edx' := r.edx ||| (result.edx &&& (1 <<< EDX_HTT_SHIFT))
      { r with ebx := ebx', ecx := ecx', edx := edx' }
    else
      let ebx0 := toU32 (ctx.vcpu_id <<< EBX_CPUID_SHIFT) |||
        (EBX_CLFLUSH_CACHELINE <<< EBX_CLFLUSH_SIZE_SHIFT)
      let ebx' := if 1 < ctx.cpu_count then
          ebx0 ||| toU32 (toU32 ctx.cpu_count <<< EBX_CPU_COUNT_SHIFT)
        else ebx0
      let edx' := if 1 < ctx.cpu_count then r.edx ||| (1 <<< EDX_HTT_SHIFT) else r.edx
      { r with ebx := ebx', ecx := ecx', edx := edx' }
  else if fn = 2 ∨ fn = 0x80000002 ∨ fn = 0x80000003 ∨ fn = 0x80000004 ∨
      fn = 0x80000005 ∨ fn = 0x80000006 then
    ctx.cpuid fn
  else if fn = 4 then
    let host := ctx.cpuid_count fn idx
    if ctx.host_cpu_topology then host
    else
      let eax1 := host.eax &&& notU32 0xFC000000
      let eax' := if 1 < ctx.cpu_count then
          let cpu_cores := if ctx.no_smt then toU32 ctx.cpu_count
            else if ctx.cpu_count % 2 = 0 then toU32 (ctx.cpu_count >>> 1)
            else 1
          eax1 ||| toU32 ((cpu_cores - 1) <<< EAX_CPU_CORES_SHIFT)
        else eax1
      { host with eax := eax' }
  else if fn = 6 then
    let ecx1 := r.ecx &&& notU32 (1 <<< ECX_EPB_SHIFT)
    if ctx.itmt || ctx.enable_pnp_data then
      let result := ctx.cpuid fn
      let eax1 := if ctx.itmt then
          ((r.eax ||| (result.eax &&& (1 <<< EAX_ITMT_SHIFT))) |||
            (result.eax &&& (1 <<< EAX_HWP_SHIFT))) |||
            (result.eax &&& (1 <<< EAX_HWP_EPP_SHIFT))
        else r.eax
      let eax2 := if ctx.enable_pnp_data then
          (eax1 ||| (result.eax &&& (1 <<< EAX_CORE_TEMP))) |||
            (result.eax &&& (1 <<< EAX_PKG_TEMP))
        else eax1
      let ecx2 := if ctx.enable_pnp_data then
          ecx1 ||| (result.ecx &&& (1 <<< ECX_HCFC_PERF_SHIFT))
        else ecx1
      { r with eax := eax2, ecx := ecx2 }
    else
      { r with ecx := ecx1 }
  else if fn = 7 then
    if ctx.host_cpu_topology ∧ idx = 0 then
      let result := ctx.cpuid_count fn idx
      { r with edx := r.edx ||| (result.edx &&& (1 <<< EDX_HYBRID_CPU_SHIFT)) }
    else r
  else if fn = 0x15 then
    if ctx.calibrated_tsc_leaf_required || ctx.force_calibrated_tsc_leaf then
      match ctx.tsc_frequency with
      | some tsc_freq => fake_tsc_frequency_cpuid tsc_freq ctx.apic_frequency
      | none => r
    else if ctx.enable_pnp_data then ctx.cpuid fn
    else r
  else if fn = 0x1A then
    if ctx.host_cpu_topology then ctx.cpuid fn else r
  else if fn = 0xB ∨ fn = 0x1F then
    if ctx.host_cpu_topology then r
    else
      let edx' := toU32 ctx.vcpu_id
      if idx = 0 then
        if ctx.no_smt || decide (ctx.cpu_count = 1) then
          { r with
              eax := 0
              ebx := 1
              ecx := (ECX_TOPO_SMT_TYPE <<< ECX_TOPO_TYPE_SHIFT) ||| idx
              edx := edx' }
        else if ctx.cpu_count % 2 = 0 then
          { r with
              eax := 1
              ebx := 2
              ecx := (ECX_TOPO_SMT_TYPE <<< ECX_TOPO_TYPE_SHIFT) ||| idx
              edx := edx' }
        else
          { r with
              eax := cpu_bits ctx.cpu_count
              ebx := toU32 ctx.cpu_count
              ecx := (ECX_TOPO_SMT_TYPE <<< ECX_TOPO_TYPE_SHIFT) ||| idx
              edx := edx' }
      else if idx = 1 then
        { r with
            eax := cpu_bits ctx.cpu_count
            ebx := toU32 ctx.cpu_count &&& 0xffff
            ecx := (ECX_TOPO_CORE_TYPE <<< ECX_TOPO_TYPE_SHIFT) ||| idx
            edx := edx' }
      else
        { r with
            eax := 0
            ebx := 0
            ecx := 0
            edx := edx' }
  else r

/-- `adjust_cpuid` from `x86_64/src/cpuid.rs`: rewrite one entry for the
given context (the Rust code mutates the entry in place; here the updated
entry is returned). -/
def adjust_cpuid (ctx : CpuIdContext) (entry : CpuIdEntry) : CpuIdEntry :=
  { entry with cpuid := adjust_regs ctx entry.function entry.index entry.cpuid }

/-- The empty leaf 0x15 pushed by `filter_cpuid` when a TSC frequency is
known but no 0x15 entry exists. -/
def empty_leaf_15 : CpuIdEntry :=
  { function := 0x15, index := 0, flags := 0, cpuid := ⟨0, 0, 0, 0⟩ }

/-- `filter_cpuid` from `x86_64/src/cpuid.rs`: push a missing empty leaf
0x15 when a TSC frequency is available, then adjust every entry. -/
def filter_cpuid (ctx : CpuIdContext) (cpuid : List CpuIdEntry) : List CpuIdEntry :=
  (if ctx.tsc_frequency.isSome && !(cpuid.any (fun e => e.function == 0x15)) then
      cpuid ++ [empty_leaf_15]
    else cpuid).map (adjust_cpuid ctx)

/-! ## Generic bitwise identities used for idempotence and bit extraction -/

theorem or1_idem (x a : Nat) : x ||| a ||| a = x ||| a := by
  rw [Nat.or_assoc, Nat.or_self]

theorem or2_idem (x a b : Nat) : x ||| a ||| b ||| a ||| b = x ||| a ||| b := by
  apply Nat.eq_of_testBit_eq
  intro i
  simp only [Nat.testBit_or]
  cases hx : x.testBit i <;> cases ha : a.testBit i <;> cases hb : b.testBit i <;> rfl

theorem or3_idem (x a b c : Nat) :
    x ||| a ||| b ||| c ||| a ||| b ||| c = x ||| a ||| b ||| c := by
  apply Nat.eq_of_testBit_eq
  intro i
  simp only [Nat.testBit_or]
  cases hx : x.testBit i <;> cases ha : a.testBit i <;> cases hb : b.testBit i <;>
    cases hc : c.testBit i <;> rfl

theorem or5_idem (x a b c d e : Nat) :
    x ||| a ||| b ||| c ||| d ||| e ||| a ||| b ||| c ||| d ||| e =
      x ||| a ||| b ||| c ||| d ||| e := by
  apply Nat.eq_of_testBit_eq
  intro i
  simp only [Nat.testBit_or]
  cases hx : x.testBit i <;> cases ha : a.testBit i <;> cases hb : b.testBit i <;>
    cases hc : c.testBit i <;> cases hd : d.testBit i <;> cases he : e.testBit i <;> rfl

theorem and1_idem (x m : Nat) : x &&& m &&& m = x &&& m := by
  apply Nat.eq_of_testBit_eq
  intro i
  simp only [Nat.testBit_and]
  cases hx : x.testBit i <;> cases hm : m.testBit i <;> rfl

theorem andOr_idem (x m c : Nat) : (x &&& m ||| c) &&& m ||| c = x &&& m ||| c := by
  apply Nat.eq_of_testBit_eq
  intro i
  simp only [Nat.testBit_or, Nat.testBit_and]
  cases hx : x.testBit i <;> cases hm : m.testBit i <;> cases hc : c.testBit i <;> rfl

theorem orAnd_idem (x a m : Nat) : ((x ||| a) &&& m ||| a) &&& m = (x ||| a) &&& m := by
  apply Nat.eq_of_testBit_eq
  intro i
  simp only [Nat.testBit_or, Nat.testBit_and]
  cases hx : x.testBit i <;> cases ha : a.testBit i <;> cases hm : m.testBit i <;> rfl

theorem orAndOr_idem (x a m c : Nat) :
    ((x ||| a) &&& m ||| c ||| a) &&& m ||| c = (x ||| a) &&& m ||| c := by
  apply Nat.eq_of_testBit_eq
  intro i
  simp only [Nat.testBit_or, Nat.testBit_and]
  cases hx : x.testBit i <;> cases ha : a.testBit i <;> cases hm : m.testBit i <;>
    cases hc : c.testBit i <;> rfl

/-! ## Structural facts about `adjust_cpuid` -/

theorem adjust_cpuid_function (ctx : CpuIdContext) (e : CpuIdEntry) :
    (adjust_cpuid ctx e).function = e.function := rfl

theorem adjust_cpuid_index (ctx : CpuIdContext) (e : CpuIdEntry) :
    (adjust_cpuid ctx e).index = e.index := rfl

/-! ## Bit values of the leaf-1 constants -/

theorem tb31_31 : Nat.testBit 2147483648 31 = true := by decide
theorem tb31_21 : Nat.testBit 2147483648 21 = false := by decide
theorem tb31_24 : Nat.testBit 2147483648 24 = false := by decide
theorem tb21_21 : Nat.testBit 2097152 21 = true := by decide
theorem tb21_24 : Nat.testBit 2097152 24 = false := by decide
theorem tb24_24 : Nat.testBit 16777216 24 = true := by decide
theorem tb24_21 : Nat.testBit 16777216 21 = false := by decide
theorem tb28_28 : Nat.testBit 268435456 28 = true := by decide
theorem tbM21_31 : Nat.testBit (notU32 2097152) 31 = true := by decide
theorem tbM21_21 : Nat.testBit (notU32 2097152) 21 = false := by decide
theorem tbM21_24 : Nat.testBit (notU32 2097152) 24 = true := by decide

/-! ## The three ECX feature bits of leaf 1 -/

theorem leaf1_ecx_testBit31 (ctx : CpuIdContext) (x : Nat) :
    (leaf1_ecx ctx 0 x).testBit 31 = true := by
  unfold leaf1_ecx
  by_cases h2 : ctx.x2apic <;> by_cases h3 : ctx.tsc_deadline_timer <;>
    simp [h2, h3, Nat.testBit_or, Nat.testBit_and, ECX_HYPERVISOR_SHIFT,
      ECX_X2APIC_SHIFT, ECX_TSC_DEADLINE_TIMER_SHIFT, tb31_31, tbM21_31]

theorem leaf1_ecx_testBit21 (ctx : CpuIdContext) (idx x : Nat) :
    (leaf1_ecx ctx idx x).testBit 21 = ctx.x2apic := by
  unfold leaf1_ecx
  by_cases h0 : idx = 0 <;> by_cases h2 : ctx.x2apic <;>
    by_cases h3 : ctx.tsc_deadline_timer <;>
    simp [h0, h2, h3, Nat.testBit_or, Nat.testBit_and, ECX_HYPERVISOR_SHIFT,
      ECX_X2APIC_SHIFT, ECX_TSC_DEADLINE_TIMER_SHIFT, tb21_21, tb31_21, tb24_21,
      tbM21_21]

theorem leaf1_ecx_testBit24 (ctx : CpuIdContext) (idx x : Nat) :
    (leaf1_ecx ctx idx x).testBit 24 = (ctx.tsc_deadline_timer || x.testBit 24) := by
  unfold leaf1_ecx
  by_cases h0 : idx = 0 <;> by_cases h2 : ctx.x2apic <;>
    by_cases h3 : ctx.tsc_deadline_timer <;>
    simp [h0, h2, h3, Nat.testBit_or, Nat.testBit_and, ECX_HYPERVISOR_SHIFT,
      ECX_X2APIC_SHIFT, ECX_TSC_DEADLINE_TIMER_SHIFT, tb24_24, tb31_24, tb21_24,
      tbM21_24]

/-- In the `function == 1` arm, the output ECX is `leaf1_ecx` of the input
ECX, in both the host-topology and the guest-topology branch. -/
theorem adjust_leaf1_ecx (ctx : CpuIdContext) (e : CpuIdEntry)
    (hf : e.function = 1) :
    (adjust_cpuid ctx e).cpuid.ecx = leaf1_ecx ctx e.index e.cpuid.ecx := by
  show (adjust_regs ctx e.function e.index e.cpuid).ecx = _
  rw [hf]
  unfold adjust_regs
  by_cases hh : ctx.host_cpu_topology <;> simp [hh]

/-- In the `function == 1` arm with `host_cpu_topology == false`, the output
EBX and EDX registers. -/
theorem adjust_leaf1_guest_regs (ctx : CpuIdContext) (e : CpuIdEntry)
    (hf : e.function = 1) (hh : ctx.host_cpu_topology = false) :
    ((adjust_cpuid ctx e).cpuid.ebx =
      if 1 < ctx.cpu_count then
        (toU32 (ctx.vcpu_id <<< 24) ||| (8 <<< 8)) |||
          toU32 (toU32 ctx.cpu_count <<< 16)
      else toU32 (ctx.vcpu_id <<< 24) ||| (8 <<< 8)) ∧
    ((adjust_cpuid ctx e).cpuid.edx =
      if 1 < ctx.cpu_count then e.cpuid.edx ||| (1 <<< 28) else e.cpuid.edx) := by
  constructor
  · show (adjust_regs ctx e.function e.index e.cpuid).ebx = _
    rw [hf]
    unfold adjust_regs
    by_cases hcc : 1 < ctx.cpu_count <;>
      simp [hh, hcc, EBX_CPUID_SHIFT, EBX_CLFLUSH_CACHELINE, EBX_CLFLUSH_SIZE_SHIFT,
        EBX_CPU_COUNT_SHIFT]
  · show (adjust_regs ctx e.function e.index e.cpuid).edx = _
    rw [hf]
    unfold adjust_regs
    by_cases hcc : 1 < ctx.cpu_count <;> simp [hh, hcc, EDX_HTT_SHIFT]

/-! ## Concrete fixtures for claim witnesses and counterexamples -/

/-- A guest-topology context: 2 vCPUs, vcpu_id 1, every optional feature
off (mirrors the `feature_and_vendor_name` unit test of `cpuid.rs`). -/
def ctx_guest_2cpu : CpuIdContext :=
  { vcpu_id := 1, cpu_count := 2, no_smt := false, x2apic := false,
    tsc_deadline_timer := false, apic_frequency := 0, tsc_frequency := none,
    force_calibrated_tsc_leaf := false, calibrated_tsc_leaf_required := false,
    host_cpu_topology := false, enable_pnp_data := false, itmt := false,
    cpuid_count := fun _ _ => ⟨0, 0, 0, 0⟩, cpuid := fun _ => ⟨0, 0, 0, 0⟩ }

def entry_leaf1_index0 : CpuIdEntry := ⟨1, 0, 0, ⟨0, 0, 0x10, 0⟩⟩

def entry_leaf1_index1 : CpuIdEntry := ⟨1, 1, 0, ⟨0, 0, 0, 0⟩⟩

/-- A leaf-1 entry whose input ECX already has bit 24 set. -/
def entry_leaf1_tsc24 : CpuIdEntry := ⟨1, 0, 0, ⟨0, 0, 16777216, 0⟩⟩

/-! ## C1: leaf 1 EBX/EDX/ECX under guest topology -/

/-- C1: for every CPUID entry with function 1 and index 0, when
`host_cpu_topology` is false, `adjust_cpuid` sets
`EBX = (vcpu_id << 24) | (8 << 8)`, OR-ing in `cpu_count << 16` and setting
`EDX[28]` (HTT) when `cpu_count > 1`; for `cpu_count = 2`, `vcpu_id = 1`
the resulting EBX is `0x01020800`, EDX bit 28 is set and ECX bit 31 is set.
(Stated for in-range `vcpu_id < 2^8` and `cpu_count < 2^16`, where the
`as u32` casts of the Rust code do not truncate.) -/
theorem cpuid_leaf1_guest_topology (ctx : CpuIdContext) (e : CpuIdEntry)
    (hf : e.function = 1) (hi : e.index = 0)
    (hh : ctx.host_cpu_topology = false)
    (hv : ctx.vcpu_id < 256) (hc : ctx.cpu_count < 65536) :
    ((adjust_cpuid ctx e).cpuid.ebx =
      if 1 < ctx.cpu_count then
        ((ctx.vcpu_id <<< 24) ||| (8 <<< 8)) ||| (ctx.cpu_count <<< 16)
      else (ctx.vcpu_id <<< 24) ||| (8 <<< 8)) ∧
    (1 < ctx.cpu_count → (adjust_cpuid ctx e).cpuid.edx.testBit 28 = true) ∧
    ((adjust_cpuid ctx e).cpuid.ecx.testBit 31 = true) ∧
    (ctx.vcpu_id = 1 → ctx.cpu_count = 2 →
      (adjust_cpuid ctx e).cpuid.ebx = 0x01020800) := by
  have hu1 : toU32 (ctx.vcpu_id <<< 24) = ctx.vcpu_id <<< 24 := by
    unfold toU32
    apply Nat.mod_eq_of_lt
    rw [Nat.shiftLeft_eq]
    norm_num
    omega
  have hu2 : toU32 ctx.cpu_count = ctx.cpu_count := by
    unfold toU32
    apply Nat.mod_eq_of_lt
    omega
  have hu3 : toU32 (ctx.cpu_count <<< 16) = ctx.cpu_count <<< 16 := by
    unfold toU32
    apply Nat.mod_eq_of_lt
    rw [Nat.shiftLeft_eq]
    norm_num
    omega
  obtain ⟨hebx, hedx⟩ := adjust_leaf1_guest_regs ctx e hf hh
  rw [hu1, hu2, hu3] at hebx
  refine ⟨hebx, ?_, ?_, ?_⟩
  · intro hcc
    rw [hedx, if_pos hcc, Nat.testBit_or]
    simp [tb28_28]
  · rw [adjust_leaf1_ecx ctx e hf, hi]
    exact leaf1_ecx_testBit31 ctx e.cpuid.ecx
  · intro hv1 hc2
    rw [hebx, hv1, hc2]
    decide

/-- Witness for C1 at the concrete context `ctx_guest_2cpu` and entry
`entry_leaf1_index0`. -/
theorem cpuid_leaf1_guest_topology_witness :
    entry_leaf1_index0.function = 1 ∧ entry_leaf1_index0.index = 0 ∧
    ctx_guest_2cpu.host_cpu_topology = false ∧ ctx_guest_2cpu.vcpu_id < 256 ∧
    ctx_guest_2cpu.cpu_count < 65536 ∧
    (adjust_cpuid ctx_guest_2cpu entry_leaf1_index0).cpuid.ebx = 0x01020800 ∧
    (adjust_cpuid ctx_guest_2cpu entry_leaf1_index0).cpuid.edx.testBit 28 = true ∧
    (adjust_cpuid ctx_guest_2cpu entry_leaf1_index0).cpuid.ecx.testBit 31 = true := by
  have h := cpuid_leaf1_guest_topology ctx_guest_2cpu entry_leaf1_index0
    rfl rfl rfl (by decide) (by decide)
  exact ⟨rfl, rfl, rfl, by decide, by decide, h.2.2.2 rfl rfl,
    h.2.1 (by decide), h.2.2.1⟩

/-! ## C2: the hypervisor-present bit -/

/-- C2 (counterexample to the claim as stated): for an entry with
function 1 but index 1, `adjust_cpuid` does not set ECX bit 31 — the
hypervisor bit is only OR-ed in when `entry.index == 0`. -/
theorem cpuid_leaf1_ecx31_any_index_cex :
    entry_leaf1_index1.function = 1 ∧
    (adjust_cpuid ctx_guest_2cpu entry_leaf1_index1).cpuid.ecx.testBit 31 = false := by
  constructor
  · rfl
  · decide

/-- C2 (amended): for every CPUID entry with function 1 and index 0,
`adjust_cpuid` leaves the hypervisor-present bit ECX[31] set. -/
theorem cpuid_leaf1_hypervisor_bit (ctx : CpuIdContext) (e : CpuIdEntry)
    (hf : e.function = 1) (hi : e.index = 0) :
    (adjust_cpuid ctx e).cpuid.ecx.testBit 31 = true := by
  rw [adjust_leaf1_ecx ctx e hf, hi]
  exact leaf1_ecx_testBit31 ctx e.cpuid.ecx

/-- Witness for the amended C2. -/
theorem cpuid_leaf1_hypervisor_bit_witness :
    entry_leaf1_index0.function = 1 ∧ entry_leaf1_index0.index = 0 ∧
    (adjust_cpuid ctx_guest_2cpu entry_leaf1_index0).cpuid.ecx.testBit 31 = true :=
  ⟨rfl, rfl, cpuid_leaf1_hypervisor_bit ctx_guest_2cpu entry_leaf1_index0 rfl rfl⟩

/-! ## C3: X2APIC and TSC-deadline-timer bits -/

/-- C3 (counterexample to the claim as stated): with
`tsc_deadline_timer = false` but ECX bit 24 set in the input entry, the bit
stays set after `adjust_cpuid` — the code only ORs the bit in, it never
clears it, so "the bit equals the flag regardless of its input value"
fails. -/
theorem cpuid_leaf1_tsc_deadline_cex :
    ctx_guest_2cpu.tsc_deadline_timer = false ∧
    entry_leaf1_tsc24.function = 1 ∧
    (adjust_cpuid ctx_guest_2cpu entry_leaf1_tsc24).cpuid.ecx.testBit 24 = true := by
  refine ⟨rfl, rfl, ?_⟩
  decide

/-- C3 (amended): for every CPUID entry with function 1, after
`adjust_cpuid` the bit ECX[21] equals the `x2apic` flag (set or cleared
regardless of its input value), while ECX[24] is the OR of the
`tsc_deadline_timer` flag and the bit's input value (set when the flag is
true, left unchanged otherwise). -/
theorem cpuid_leaf1_apic_bits (ctx : CpuIdContext) (e : CpuIdEntry)
    (hf : e.function = 1) :
    (adjust_cpuid ctx e).cpuid.ecx.testBit 21 = ctx.x2apic ∧
    (adjust_cpuid ctx e).cpuid.ecx.testBit 24 =
      (ctx.tsc_deadline_timer || e.cpuid.ecx.testBit 24) := by
  rw [adjust_leaf1_ecx ctx e hf]
  exact ⟨leaf1_ecx_testBit21 ctx e.index e.cpuid.ecx,
    leaf1_ecx_testBit24 ctx e.index e.cpuid.ecx⟩

/-- Witness for the amended C3. -/
theorem cpuid_leaf1_apic_bits_witness :
    entry_leaf1_tsc24.function = 1 ∧
    (adjust_cpuid ctx_guest_2cpu entry_leaf1_tsc24).cpuid.ecx.testBit 21 =
      ctx_guest_2cpu.x2apic ∧
    (adjust_cpuid ctx_guest_2cpu entry_leaf1_tsc24).cpuid.ecx.testBit 24 =
      (ctx_guest_2cpu.tsc_deadline_timer ||
        entry_leaf1_tsc24.cpuid.ecx.testBit 24) :=
  ⟨rfl, cpuid_leaf1_apic_bits ctx_guest_2cpu entry_leaf1_tsc24 rfl⟩

/-! ## C4: extended topology leaves 0xB / 0x1F -/

/-- `Nat.size (n - 1)` (the bit width computed by
`32 - (n-1).leading_zeros()`) is exactly the ceiling of `log2 n`. -/
theorem size_pred_eq_clog (n : Nat) (h : 1 ≤ n) :
    Nat.size (n - 1) = Nat.clog 2 n := by
  apply le_antisymm
  · rw [Nat.size_le]
    have h2 : n ≤ 2 ^ Nat.clog 2 n := Nat.le_pow_clog (by norm_num) n
    omega
  · rw [← Nat.le_pow_iff_clog_le (by norm_num)]
    have h3 : n - 1 < 2 ^ Nat.size (n - 1) := Nat.lt_size_self (n - 1)
    omega

/-- For `1 ≤ cpu_count < 2^32` the Rust `cpu_bits` computation equals
`ceil_log2 cpu_count`. -/
theorem cpu_bits_eq_clog (n : Nat) (h1 : 1 ≤ n) (h2 : n < 4294967296) :
    cpu_bits n = Nat.clog 2 n := by
  unfold cpu_bits leading_zeros_u32 toU32
  have e1 : (n + 18446744073709551615) % 18446744073709551616 = n - 1 := by omega
  rw [e1]
  have e2 : (n - 1) % 4294967296 = n - 1 := Nat.mod_eq_of_lt (by omega)
  simp only [e2]
  have hsz : Nat.size (n - 1) ≤ 32 := by
    rw [Nat.size_le]
    norm_num
    omega
  rw [size_pred_eq_clog n h1] at hsz ⊢
  omega

/-- Closed form of the 0xB/0x1F arm of `adjust_regs` under guest
topology. -/
theorem adjust_regs_ext_topology (ctx : CpuIdContext) (fn idx : Nat)
    (r : CpuidResult) (hfn : fn = 0xB ∨ fn = 0x1F)
    (hh : ctx.host_cpu_topology = false) :
    adjust_regs ctx fn idx r =
      if idx = 0 then
        if ctx.no_smt || decide (ctx.cpu_count = 1) then
          { r with eax := 0, ebx := 1, ecx := (1 <<< 8) ||| idx, edx := toU32 ctx.vcpu_id }
        else if ctx.cpu_count % 2 = 0 then
          { r with eax := 1, ebx := 2, ecx := (1 <<< 8) ||| idx, edx := toU32 ctx.vcpu_id }
        else
          { r with
              eax := cpu_bits ctx.cpu_count
              ebx := toU32 ctx.cpu_count
              ecx := (1 <<< 8) ||| idx
              edx := toU32 ctx.vcpu_id }
      else if idx = 1 then
        { r with
            eax := cpu_bits ctx.cpu_count
            ebx := toU32 ctx.cpu_count &&& 0xffff
            ecx := (2 <<< 8) ||| idx
            edx := toU32 ctx.vcpu_id }
      else
        { r with eax := 0, ebx := 0, ecx := 0, edx := toU32 ctx.vcpu_id } := by
  rcases hfn with h | h <;> subst h <;>
    simp [adjust_regs, hh, ECX_TOPO_SMT_TYPE, ECX_TOPO_CORE_TYPE, ECX_TOPO_TYPE_SHIFT]

/-- C4: for CPUID leaves 0xB/0x1F under guest topology, `adjust_cpuid`
writes `EDX = vcpu_id`; at index 0 it writes `(EAX, EBX)` as
`(0, 1)` for SMT-off or a single CPU, `(1, 2)` for an even CPU count, and
`(ceil_log2 cpu_count, cpu_count)` for an odd count `> 1`, with
`ECX = (1 << 8) | index`; at index 1 it writes
`(ceil_log2 cpu_count, cpu_count & 0xffff)` with `ECX = (2 << 8) | index`;
at every index ≥ 2 EAX, EBX and ECX are zero.  With `no_smt`, `EBX[15:0]`
at index 0 is 1. -/
theorem cpuid_ext_topology (ctx : CpuIdContext) (e : CpuIdEntry)
    (hf : e.function = 0xB ∨ e.function = 0x1F)
    (hh : ctx.host_cpu_topology = false)
    (hc1 : 1 ≤ ctx.cpu_count) (hc2 : ctx.cpu_count < 4294967296)
    (hv : ctx.vcpu_id < 4294967296) :
    (adjust_cpuid ctx e).cpuid.edx = ctx.vcpu_id ∧
    (e.index = 0 →
      ((ctx.no_smt = true ∨ ctx.cpu_count = 1 →
          (adjust_cpuid ctx e).cpuid.eax = 0 ∧ (adjust_cpuid ctx e).cpuid.ebx = 1) ∧
       (ctx.no_smt = false → ctx.cpu_count ≠ 1 → ctx.cpu_count % 2 = 0 →
          (adjust_cpuid ctx e).cpuid.eax = 1 ∧ (adjust_cpuid ctx e).cpuid.ebx = 2) ∧
       (ctx.no_smt = false → ctx.cpu_count ≠ 1 → ctx.cpu_count % 2 = 1 →
          (adjust_cpuid ctx e).cpuid.eax = Nat.clog 2 ctx.cpu_count ∧
          (adjust_cpuid ctx e).cpuid.ebx = ctx.cpu_count) ∧
       (adjust_cpuid ctx e).cpuid.ecx = (1 <<< 8) ||| e.index ∧
       (ctx.no_smt = true → (adjust_cpuid ctx e).cpuid.ebx &&& 0xffff = 1))) ∧
    (e.index = 1 →
      (adjust_cpuid ctx e).cpuid.eax = Nat.clog 2 ctx.cpu_count ∧
      (adjust_cpuid ctx e).cpuid.ebx = ctx.cpu_count &&& 0xffff ∧
      (adjust_cpuid ctx e).cpuid.ecx = (2 <<< 8) ||| e.index) ∧
    (2 ≤ e.index →
      (adjust_cpuid ctx e).cpuid.eax = 0 ∧ (adjust_cpuid ctx e).cpuid.ebx = 0 ∧
      (adjust_cpuid ctx e).cpuid.ecx = 0) := by
  have hadj : (adjust_cpuid ctx e).cpuid = adjust_regs ctx e.function e.index e.cpuid := rfl
  have hA := adjust_regs_ext_topology ctx e.function e.index e.cpuid hf hh
  have hvv : toU32 ctx.vcpu_id = ctx.vcpu_id := by unfold toU32; omega
  have hcc : toU32 ctx.cpu_count = ctx.cpu_count := by unfold toU32; omega
  have hcb := cpu_bits_eq_clog ctx.cpu_count hc1 hc2
  rw [hvv, hcc, hcb] at hA
  rw [hadj, hA]
  refine ⟨?_, ?_, ?_, ?_⟩
  · split_ifs <;> rfl
  · intro h0
    rw [if_pos h0]
    refine ⟨?_, ?_, ?_, ?_, ?_⟩
    · intro hcase
      have hcond : (ctx.no_smt || decide (ctx.cpu_count = 1)) = true := by
        rcases hcase with h | h
        · simp [h]
        · simp [h]
      rw [if_pos hcond]
      exact ⟨rfl, rfl⟩
    · intro hns hne hmod
      have hcond : ¬ (ctx.no_smt || decide (ctx.cpu_count = 1)) = true := by
        simp [hns, hne]
      rw [if_neg hcond, if_pos hmod]
      exact ⟨rfl, rfl⟩
    · intro hns hne hodd
      have hcond : ¬ (ctx.no_smt || decide (ctx.cpu_count = 1)) = true := by
        simp [hns, hne]
      have hmod : ¬ ctx.cpu_count % 2 = 0 := by omega
      rw [if_neg hcond, if_neg hmod]
      exact ⟨rfl, rfl⟩
    · split_ifs <;> rfl
    · intro hns
      have hcond : (ctx.no_smt || decide (ctx.cpu_count = 1)) = true := by simp [hns]
      rw [if_pos hcond]
      show (1 : Nat) &&& 65535 = 1
      decide
  · intro h1
    have h0 : ¬ e.index = 0 := by omega
    rw [if_neg h0, if_pos h1]
    exact ⟨rfl, rfl, rfl⟩
  · intro h2
    have h0 : ¬ e.index = 0 := by omega
    have h1 : ¬ e.index = 1 := by omega
    rw [if_neg h0, if_neg h1]
    exact ⟨rfl, rfl, rfl⟩

/-- Guest-topology context with an odd CPU count: 3 vCPUs, vcpu_id 2. -/
def ctx_odd3 : CpuIdContext :=
  { vcpu_id := 2, cpu_count := 3, no_smt := false, x2apic := false,
    tsc_deadline_timer := false, apic_frequency := 0, tsc_frequency := none,
    force_calibrated_tsc_leaf := false, calibrated_tsc_leaf_required := false,
    host_cpu_topology := false, enable_pnp_data := false, itmt := false,
    cpuid_count := fun _ _ => ⟨0, 0, 0, 0⟩, cpuid := fun _ => ⟨0, 0, 0, 0⟩ }

def entry_topoB : CpuIdEntry := ⟨0xB, 0, 0, ⟨9, 9, 9, 9⟩⟩

/-- Witness for C4 at leaf 0xB, index 0, odd cpu_count 3. -/
theorem cpuid_ext_topology_witness :
    (entry_topoB.function = 0xB ∨ entry_topoB.function = 0x1F) ∧
    ctx_odd3.host_cpu_topology = false ∧ 1 ≤ ctx_odd3.cpu_count ∧
    ctx_odd3.cpu_count < 4294967296 ∧ ctx_odd3.vcpu_id < 4294967296 ∧
    (adjust_cpuid ctx_odd3 entry_topoB).cpuid.edx = ctx_odd3.vcpu_id ∧
    (adjust_cpuid ctx_odd3 entry_topoB).cpuid.eax = Nat.clog 2 ctx_odd3.cpu_count ∧
    (adjust_cpuid ctx_odd3 entry_topoB).cpuid.ebx = ctx_odd3.cpu_count ∧
    (adjust_cpuid ctx_odd3 entry_topoB).cpuid.ecx = (1 <<< 8) ||| entry_topoB.index := by
  have h := cpuid_ext_topology ctx_odd3 entry_topoB (Or.inl rfl) rfl
    (by decide) (by decide) (by decide)
  refine ⟨Or.inl rfl, rfl, by decide, by decide, by decide, h.1, ?_, ?_,
    (h.2.1 rfl).2.2.2.1⟩
  · exact ((h.2.1 rfl).2.2.1 rfl (by decide) (by decide)).1
  · exact ((h.2.1 rfl).2.2.1 rfl (by decide) (by decide)).2

/-! ## C5: idempotence of the CPUID filter -/

theorem leaf1_ecx_idem (ctx : CpuIdContext) (idx x : Nat) :
    leaf1_ecx ctx idx (leaf1_ecx ctx idx x) = leaf1_ecx ctx idx x := by
  unfold leaf1_ecx
  by_cases h0 : idx = 0 <;> by_cases h2 : ctx.x2apic <;>
    by_cases h3 : ctx.tsc_deadline_timer <;>
    simp only [h0, h2, h3, if_true, if_false, decide_True, decide_False,
      Bool.false_eq_true, ite_true, ite_false, if_pos, if_neg] <;>
    first
      | exact or3_idem _ _ _ _
      | exact or2_idem _ _ _
      | exact orAndOr_idem _ _ _ _
      | exact orAnd_idem _ _ _
      | exact or1_idem _ _
      | exact andOr_idem _ _ _
      | exact and1_idem _ _

theorem adjust_regs_idem (ctx : CpuIdContext) (fn idx : Nat) (r : CpuidResult) :
    adjust_regs ctx fn idx (adjust_regs ctx fn idx r) = adjust_regs ctx fn idx r := by
  by_cases h0 : fn = 0
  · subst h0
    by_cases ht : ctx.tsc_frequency.isSome <;>
      simp [adjust_regs, ht, ← max_assoc]
  · by_cases h1 : fn = 1
    · subst h1
      by_cases hh : ctx.host_cpu_topology <;> by_cases hcp : 1 < ctx.cpu_count <;>
        simp [adjust_regs, hh, hcp] <;>
        (repeat' apply And.intro) <;>
        first
          | rfl
          | exact or1_idem _ _
          | exact leaf1_ecx_idem _ _ _
    · by_cases hg : fn = 2 ∨ fn = 0x80000002 ∨ fn = 0x80000003 ∨ fn = 0x80000004 ∨
          fn = 0x80000005 ∨ fn = 0x80000006
      · have hg0 : ¬ fn = 0 := h0
        have hg1 : ¬ fn = 1 := h1
        simp [adjust_regs, hg0, hg1, hg]
      · by_cases h4 : fn = 4
        · subst h4
          by_cases hh : ctx.host_cpu_topology <;> simp [adjust_regs, hh]
        · by_cases h6 : fn = 6
          · subst h6
            by_cases hit : ctx.itmt <;> by_cases hpn : ctx.enable_pnp_data <;>
              simp [adjust_regs, hit, hpn] <;>
              (repeat' apply And.intro) <;>
              first
                | rfl
                | exact or5_idem _ _ _ _ _ _
                | exact or3_idem _ _ _ _
                | exact or2_idem _ _ _
                | exact andOr_idem _ _ _
                | exact and1_idem _ _
          · by_cases h7 : fn = 7
            · subst h7
              by_cases hc7 : ctx.host_cpu_topology = true ∧ idx = 0 <;>
                simp [adjust_regs, hc7] <;>
                (repeat' apply And.intro) <;>
                first
                  | rfl
                  | exact or1_idem _ _
            · by_cases h15 : fn = 0x15
              · subst h15
                by_cases hcal : (ctx.calibrated_tsc_leaf_required ||
                    ctx.force_calibrated_tsc_leaf) = true
                · cases hts : ctx.tsc_frequency <;> simp [adjust_regs, hcal, hts]
                · by_cases hpn : ctx.enable_pnp_data <;>
                    simp [adjust_regs, hcal, hpn]
              · by_cases h1A : fn = 0x1A
                · subst h1A
                  by_cases hh : ctx.host_cpu_topology <;> simp [adjust_regs, hh]
                · by_cases hB : fn = 0xB ∨ fn = 0x1F
                  · have hB' := hB
                    rcases hB with hb | hb <;> subst hb <;>
                      by_cases hh : ctx.host_cpu_topology <;>
                      simp [adjust_regs, hh] <;>
                      split_ifs <;> rfl
                  · simp [adjust_regs, h0, h1, hg, h4, h6, h7, h15, h1A, hB]

theorem adjust_cpuid_idem (ctx : CpuIdContext) (e : CpuIdEntry) :
    adjust_cpuid ctx (adjust_cpuid ctx e) = adjust_cpuid ctx e := by
  have h : adjust_cpuid ctx (adjust_cpuid ctx e) = { e with cpuid := adjust_regs ctx e.function e.index (adjust_regs ctx e.function e.index e.cpuid) } := rfl
  rw [h, adjust_regs_idem ctx e.function e.index e.cpuid]
  rfl

/-- `adjust_cpuid` never changes an entry's function number, so it does not
change whether a leaf 0x15 entry is present. -/
theorem adjust_preserves_any15 (ctx : CpuIdContext) :
    ∀ l : List CpuIdEntry,
      (l.map (adjust_cpuid ctx)).any (fun e => e.function == 0x15) =
        l.any (fun e => e.function == 0x15)
  | [] => rfl
  | e :: t => by
    simp only [List.map_cons, List.any_cons, adjust_preserves_any15 ctx t,
      adjust_cpuid_function]

/-- C5: the CPUID filter is idempotent: applying `filter_cpuid` twice over
any context (with pure probe functions) yields the same table as applying
it once. -/
theorem filter_cpuid_idem (ctx : CpuIdContext) (l : List CpuIdEntry) :
    filter_cpuid ctx (filter_cpuid ctx l) = filter_cpuid ctx l := by
  have hmapmap : ∀ m : List CpuIdEntry,
      (m.map (adjust_cpuid ctx)).map (adjust_cpuid ctx) = m.map (adjust_cpuid ctx) := by
    intro m
    rw [List.map_map]
    apply List.map_congr_left
    intro a _
    exact adjust_cpuid_idem ctx a
  by_cases hts : ctx.tsc_frequency.isSome = true
  · by_cases hany : l.any (fun e => e.function == 0x15) = true
    · have c1 : (ctx.tsc_frequency.isSome &&
          !(l.any (fun e => e.function == 0x15))) = false := by
        simp [hts, hany]
      have hinner : filter_cpuid ctx l = l.map (adjust_cpuid ctx) := by
        unfold filter_cpuid
        simp [c1]
      have hany2 : ((l.map (adjust_cpuid ctx)).any (fun e => e.function == 0x15)) = true := by
        rw [adjust_preserves_any15]
        exact hany
      have c2 : (ctx.tsc_frequency.isSome &&
          !((l.map (adjust_cpuid ctx)).any (fun e => e.function == 0x15))) = false := by
        simp [hts, hany2]
      rw [hinner]
      unfold filter_cpuid
      simp only [c2, Bool.false_eq_true, if_false]
      exact hmapmap l
    · have hany' : l.any (fun e => e.function == 0x15) = false := by
        revert hany
        cases l.any (fun e => e.function == 0x15) <;> simp
      have c1 : (ctx.tsc_frequency.isSome &&
          !(l.any (fun e => e.function == 0x15))) = true := by
        simp [hts, hany']
      have hinner : filter_cpuid ctx l = (l ++ [empty_leaf_15]).map (adjust_cpuid ctx) := by
        unfold filter_cpuid
        simp only [c1, if_true]
      have hany2 : (((l ++ [empty_leaf_15]).map (adjust_cpuid ctx)).any
          (fun e => e.function == 0x15)) = true := by
        rw [adjust_preserves_any15, List.any_append]
        simp [empty_leaf_15]
      have c2 : (ctx.tsc_frequency.isSome &&
          !(((l ++ [empty_leaf_15]).map (adjust_cpuid ctx)).any
            (fun e => e.function == 0x15))) = false := by
        rw [hany2]
        simp
      rw [hinner]
      unfold filter_cpuid
      simp only [c2, Bool.false_eq_true, if_false]
      exact hmapmap (l ++ [empty_leaf_15])
  · have hts' : ctx.tsc_frequency.isSome = false := by
      revert hts
      cases ctx.tsc_frequency.isSome <;> simp
    have c1 : ∀ m : List CpuIdEntry,
        (ctx.tsc_frequency.isSome && !(m.any (fun e => e.function == 0x15))) = false := by
      intro m
      simp [hts']
    unfold filter_cpuid
    simp only [c1, Bool.false_eq_true, if_false]
    exact hmapmap l

/-! ## C6: round-robin INTx IRQ suggestion in `generate_pci_root`
(`arch/src/lib.rs`)

Modelled from the spec where the helper types are not under src/: the
`SystemAllocator` hands out IRQ numbers; it is modelled as a deterministic
stream `alloc_stream : Nat → Nat` giving the k-th allocated IRQ, with the
allocation counter threaded explicitly.  The loop itself
(`irqs: Vec<Option<u32>>` of length `max_irqs`, indexed by
`dev_idx % max_irqs`) is embedded directly from `generate_pci_root`. -/

/-- One pass of the INTx loop of `generate_pci_root`, starting at device
index `start` with `fuel` devices left, the `irqs` pool and the count of
IRQs drawn from the allocator so far.  Returns the list of suggested IRQ
numbers (the `Some(irq_num)` passed to `assign_irq` for each device) and
the final allocation count. -/
def intx_loop (alloc_stream : Nat → Nat) :
    Nat → Nat → List (Option Nat) → Nat → List Nat × Nat
  | _, 0, _, cnt => ([], cnt)
  | start, fuel + 1, irqs, cnt =>
    match irqs.getD (start % irqs.length) none with
    | some irq =>
      let rest := intx_loop alloc_stream (start + 1) fuel irqs cnt
      (irq :: rest.1, rest.2)
    | none =>
      let irq := alloc_stream cnt
      let rest := intx_loop alloc_stream (start + 1) fuel
        (irqs.set (start % irqs.length) (some irq)) (cnt + 1)
      (irq :: rest.1, rest.2)

/-- The suggested INTx IRQ numbers for `n` devices with a pool of
`max_irqs` preallocated interrupts (`irqs = vec![None; max_irqs]`,
`irq_num = irqs[dev_idx % max_irqs]` or a fresh allocation), together with
the number of IRQs drawn from the allocator. -/
def suggested_irqs (max_irqs n : Nat) (alloc_stream : Nat → Nat) :
    List Nat × Nat :=
  intx_loop alloc_stream 0 n (List.replicate max_irqs none) 0

/-- The pool state after the first `m` residues have been filled. -/
def intx_pool (alloc_stream : Nat → Nat) (max_irqs m : Nat) : List (Option Nat) :=
  (List.range max_irqs).map (fun r => if r < m then some (alloc_stream r) else none)

theorem intx_pool_length (alloc_stream : Nat → Nat) (max_irqs m : Nat) :
    (intx_pool alloc_stream max_irqs m).length = max_irqs := by
  simp [intx_pool]

theorem intx_pool_getD (alloc_stream : Nat → Nat) (max_irqs m r : Nat)
    (hr : r < max_irqs) :
    (intx_pool alloc_stream max_irqs m).getD r none =
      if r < m then some (alloc_stream r) else none := by
  rw [List.getD_eq_getElem]
  · simp [intx_pool]
  · simp [intx_pool, hr]

theorem intx_pool_set (alloc_stream : Nat → Nat) (max_irqs m : Nat)
    (hm : m < max_irqs) :
    (intx_pool alloc_stream max_irqs m).set m (some (alloc_stream m)) =
      intx_pool alloc_stream max_irqs (m + 1) := by
  apply List.ext_getElem
  · simp [intx_pool]
  · intro i h1 h2
    have hi : i < max_irqs := by simpa [intx_pool] using h2
    rw [List.getElem_set]
    by_cases him : m = i
    · subst him
      simp [intx_pool, hm]
    · simp only [if_neg him]
      simp only [intx_pool, List.getElem_map, List.getElem_range]
      by_cases hlt : i < m
      · rw [if_pos hlt, if_pos (by omega)]
      · rw [if_neg hlt, if_neg (by omega)]

/-- Closed form of the INTx loop: starting from a pool whose first
`min start max_irqs` residues are filled, device `i` is suggested
`alloc_stream (i % max_irqs)` and the allocation counter never exceeds
`max_irqs`. -/
theorem intx_loop_spec (alloc_stream : Nat → Nat) (max_irqs : Nat)
    (hm : 0 < max_irqs) :
    ∀ fuel start,
      intx_loop alloc_stream start fuel
          (intx_pool alloc_stream max_irqs (min start max_irqs))
          (min start max_irqs) =
        ((List.range' start fuel).map (fun i => alloc_stream (i % max_irqs)),
          min (start + fuel) max_irqs) := by
  intro fuel
  induction fuel with
  | zero =>
    intro start
    simp [intx_loop]
  | succ f ih =>
    intro start
    have hlen := intx_pool_length alloc_stream max_irqs (min start max_irqs)
    by_cases hs : start < max_irqs
    · have hmin : min start max_irqs = start := by omega
      have hmod : start % max_irqs = start := Nat.mod_eq_of_lt hs
      have hgd : (intx_pool alloc_stream max_irqs (min start max_irqs)).getD
          (start % max_irqs) none = none := by
        rw [intx_pool_getD alloc_stream max_irqs _ _ (by omega : start % max_irqs < max_irqs)]
        rw [hmod, hmin]
        simp
      simp only [intx_loop, hlen, hgd]
      rw [hmod, hmin]
      rw [intx_pool_set alloc_stream max_irqs start hs]
      have harg : min (start + 1) max_irqs = start + 1 := by omega
      have ih1 := ih (start + 1)
      rw [harg] at ih1
      rw [ih1]
      simp only [List.range'_succ, List.map_cons, Prod.mk.injEq, hmod]
      exact ⟨trivial, by omega⟩
    · have hmin : min start max_irqs = max_irqs := by omega
      have hr : start % max_irqs < max_irqs := Nat.mod_lt _ hm
      have hgd : (intx_pool alloc_stream max_irqs (min start max_irqs)).getD
          (start % max_irqs) none = some (alloc_stream (start % max_irqs)) := by
        rw [intx_pool_getD alloc_stream max_irqs _ _ hr, hmin]
        rw [if_pos hr]
      simp only [intx_loop, hlen, hgd]
      rw [hmin]
      have harg : min (start + 1) max_irqs = max_irqs := by omega
      have ih1 := ih (start + 1)
      rw [harg] at ih1
      rw [ih1]
      simp only [List.range'_succ, List.map_cons, Prod.mk.injEq]
      exact ⟨trivial, by omega⟩

theorem getD_map_range' (f : Nat → Nat) (n k : Nat) (hk : k < n) :
    ((List.range' 0 n).map f).getD k 0 = f k := by
  have hl : k < ((List.range' 0 n).map f).length := by simpa using hk
  rw [List.getD_eq_getElem _ _ hl]
  simp

/-- C6: in the INTx loop of `generate_pci_root`, devices whose indices are
congruent mod `max_irqs` receive the same suggested IRQ number, and at most
`max_irqs` IRQ numbers are drawn from the allocator. -/
theorem generate_pci_root_irq_round_robin (max_irqs n i j : Nat)
    (alloc_stream : Nat → Nat) (hm : 0 < max_irqs)
    (hi : i < n) (hj : j < n) (hmod : i % max_irqs = j % max_irqs) :
    (suggested_irqs max_irqs n alloc_stream).1.getD i 0 =
      (suggested_irqs max_irqs n alloc_stream).1.getD j 0 ∧
    (suggested_irqs max_irqs n alloc_stream).2 ≤ max_irqs := by
  have hmin0 : min 0 max_irqs = 0 := by omega
  have hspec := intx_loop_spec alloc_stream max_irqs hm n 0
  rw [hmin0] at hspec
  have hpool0 : (List.replicate max_irqs (none : Option Nat)) =
      intx_pool alloc_stream max_irqs 0 := by
    apply List.ext_getElem
    · simp [intx_pool]
    · intro k h1 h2
      simp [intx_pool]
  unfold suggested_irqs
  rw [hpool0, hspec]
  constructor
  · rw [getD_map_range' _ n i hi, getD_map_range' _ n j hj, hmod]
  · show min (0 + n) max_irqs ≤ max_irqs
    omega

/-- Witness for C6: 5 devices, a pool of 2 IRQs, allocator stream
`5, 6, 7, ...`; devices 1 and 3 share a suggestion and only 2 IRQs are
drawn. -/
theorem generate_pci_root_irq_round_robin_witness :
    0 < 2 ∧ 1 < 5 ∧ 3 < 5 ∧ 1 % 2 = 3 % 2 ∧
    ((suggested_irqs 2 5 (fun k => 5 + k)).1.getD 1 0 =
      (suggested_irqs 2 5 (fun k => 5 + k)).1.getD 3 0) ∧
    (suggested_irqs 2 5 (fun k => 5 + k)).2 ≤ 2 := by
  have h := generate_pci_root_irq_round_robin 2 5 1 3 (fun k => 5 + k)
    (by decide) (by decide) (by decide) (by decide)
  exact ⟨by decide, by decide, by decide, by decide, h.1, h.2⟩

/-! ## C7: `load_image_high` (`arch/src/lib.rs`) -/

/-- `LoadImageError` from `arch/src/lib.rs` (the variants relevant to the
loaders; `Seek`/`ReadToMemory` carry host-I/O errors that are not modelled
further). -/
inductive LoadImageError where
  | BadAlignment (align : Nat)
  | ImageSizeTooLarge (size : Nat)
  | Seek
  | ReadToMemory
deriving DecidableEq, Repr

/-- Bit-population count, `u64::count_ones`; the fuel argument only bounds
the recursion depth (any `fuel ≥ n` gives the true popcount). -/
def count_ones_aux : Nat → Nat → Nat
  | 0, _ => 0
  | fuel + 1, n => if n = 0 then 0 else n % 2 + count_ones_aux fuel (n / 2)

def count_ones (n : Nat) : Nat := count_ones_aux n n

/-- `u64::is_power_of_two`: exactly one bit set. -/
def is_power_of_two (n : Nat) : Bool := count_ones n == 1

def usize_max : Nat := 18446744073709551615

/-- `load_image_high` from `arch/src/lib.rs`.  `image_size` is the size the
Rust code obtains by seeking to the end of the image file;
`max_guest_addr.offset_from(min_guest_addr)` is the guest-address
subtraction (callers guarantee `min ≤ max`); the final
`guest_mem.read_to_memory` copy is a host-I/O effect that does not change
the returned pair and is modelled as succeeding. -/
def load_image_high (min_guest_addr max_guest_addr image_size align : Nat) :
    Except LoadImageError (Nat × Nat) :=
  if ¬ is_power_of_two align then .error (.BadAlignment align)
  else
    if image_size > usize_max ∨
        image_size > (max_guest_addr - min_guest_addr) &&& notU64 (align - 1) then
      .error (.ImageSizeTooLarge image_size)
    else
      .ok ((max_guest_addr - image_size) &&& notU64 (align - 1), image_size)

theorem count_ones_aux_zero_iff :
    ∀ fuel n, n ≤ fuel → (count_ones_aux fuel n = 0 ↔ n = 0)
  | 0, n, h => by
    simp [count_ones_aux]
    omega
  | fuel + 1, n, h => by
    by_cases h0 : n = 0
    · simp [count_ones_aux, h0]
    · rw [count_ones_aux, if_neg h0]
      have hrec := count_ones_aux_zero_iff fuel (n / 2)
        (by omega : n / 2 ≤ fuel)
      constructor
      · intro he
        have h2 : count_ones_aux fuel (n / 2) = 0 := by omega
        have h3 : n / 2 = 0 := hrec.mp h2
        omega
      · intro h1
        omega

theorem count_ones_aux_eq_one :
    ∀ fuel n, n ≤ fuel → count_ones_aux fuel n = 1 → ∃ k, n = 2 ^ k
  | 0, n, h, he => by
    simp [count_ones_aux] at he
  | fuel + 1, n, h, he => by
    by_cases h0 : n = 0
    · rw [count_ones_aux, if_pos h0] at he
      omega
    · rw [count_ones_aux, if_neg h0] at he
      have hfuel : n / 2 ≤ fuel := by omega
      by_cases hpar : n % 2 = 0
      · have h1 : count_ones_aux fuel (n / 2) = 1 := by omega
        obtain ⟨k, hk⟩ := count_ones_aux_eq_one fuel (n / 2) hfuel h1
        refine ⟨k + 1, ?_⟩
        have hp : (2:Nat) ^ (k + 1) = 2 * 2 ^ k := by
          rw [pow_succ]
          ring
        omega
      · have h1 : count_ones_aux fuel (n / 2) = 0 := by omega
        have h2 : n / 2 = 0 :=
          (count_ones_aux_zero_iff fuel (n / 2) hfuel).mp h1
        exact ⟨0, by omega⟩

theorem is_power_of_two_spec (n : Nat) (h : is_power_of_two n = true) :
    ∃ k, n = 2 ^ k := by
  have : count_ones n = 1 := by simpa [is_power_of_two] using h
  exact count_ones_aux_eq_one n n (le_refl n) this

/-- A power of two divides anything AND-ed with a multiple of it. -/
theorem two_pow_dvd_land (k x m : Nat) (h : 2 ^ k ∣ m) : 2 ^ k ∣ x &&& m := by
  rw [Nat.dvd_iff_mod_eq_zero]
  apply Nat.eq_of_testBit_eq
  intro i
  simp only [Nat.testBit_mod_two_pow, Nat.testBit_and, Nat.zero_testBit]
  by_cases hik : i < k
  · have hm : m.testBit i = false := by
      rw [Nat.testBit_to_div_mod]
      obtain ⟨t, ht⟩ := h
      subst ht
      have hsplit : (2:Nat) ^ k = 2 ^ i * 2 ^ (k - i) := by
        rw [← pow_add]
        congr 1
        omega
      have h1 : 2 ^ k * t / 2 ^ i = 2 ^ (k - i) * t := by
        rw [hsplit, Nat.mul_assoc]
        exact Nat.mul_div_cancel_left _ (Nat.pos_pow_of_pos i (by omega))
      rw [h1]
      have hsplit2 : (2:Nat) ^ (k - i) = 2 * 2 ^ (k - i - 1) := by
        rw [← pow_succ']
        congr 1
        omega
      have h2 : 2 ^ (k - i) * t % 2 = 0 := by
        rw [hsplit2, Nat.mul_assoc]
        omega
      simp [h2]
    simp [hm]
  · simp [hik]

/-- AND-ing with the complement of `2^k - 1` produces a multiple of
`2^k` (the align-down operation of `load_image_high`), for `k ≤ 64`. -/
theorem land_notU64_mod (x k : Nat) (hk : k ≤ 64) :
    (x &&& notU64 (2 ^ k - 1)) % 2 ^ k = 0 := by
  have h2 : (2:Nat) ^ 64 = 18446744073709551616 := by norm_num
  have hle : (2:Nat) ^ k ≤ 18446744073709551616 := by
    have := Nat.pow_le_pow_right (by omega : 0 < 2) hk
    omega
  have hdvd : 2 ^ k ∣ notU64 (2 ^ k - 1) := by
    unfold notU64
    have h1 : (2 ^ k - 1) % 18446744073709551616 = 2 ^ k - 1 := by
      apply Nat.mod_eq_of_lt
      have hkpos : 1 ≤ (2:Nat) ^ k := Nat.one_le_two_pow
      omega
    rw [h1]
    have h3 : 18446744073709551615 - (2 ^ k - 1) = 18446744073709551616 - 2 ^ k := by
      have hkpos : 1 ≤ (2:Nat) ^ k := Nat.one_le_two_pow
      omega
    rw [h3]
    have h4 : (2:Nat) ^ k ∣ 18446744073709551616 := by
      have h5 : (2:Nat) ^ k ∣ 2 ^ 64 := pow_dvd_pow 2 hk
      rwa [h2] at h5
    exact Nat.dvd_sub' h4 dvd_rfl
  have := two_pow_dvd_land k x _ hdvd
  exact Nat.dvd_iff_mod_eq_zero.mp this

/-- C7: every successful `load_image_high` returns an `align`-aligned
address with `addr + size ≤ max_guest_addr`; a non-power-of-two `align`
fails with `BadAlignment`; an image larger than
`(max_guest_addr - min_guest_addr) & !(align - 1)` fails with
`ImageSizeTooLarge`. -/
theorem load_image_high_spec (min_addr max_addr image_size align : Nat)
    (h64 : align < 18446744073709551616) :
    (∀ addr size,
      load_image_high min_addr max_addr image_size align = .ok (addr, size) →
      addr % align = 0 ∧ addr + size ≤ max_addr ∧ size = image_size) ∧
    (is_power_of_two align = false →
      load_image_high min_addr max_addr image_size align =
        .error (.BadAlignment align)) ∧
    (is_power_of_two align = true →
      image_size > (max_addr - min_addr) &&& notU64 (align - 1) →
      load_image_high min_addr max_addr image_size align =
        .error (.ImageSizeTooLarge image_size)) := by
  refine ⟨?_, ?_, ?_⟩
  · intro addr size hok
    unfold load_image_high at hok
    by_cases hpow : is_power_of_two align = true
    · rw [if_neg (by simp [hpow])] at hok
      by_cases hsz : image_size > usize_max ∨
          image_size > (max_addr - min_addr) &&& notU64 (align - 1)
      · rw [if_pos hsz] at hok
        simp at hok
      · rw [if_neg hsz] at hok
        simp only [Except.ok.injEq, Prod.mk.injEq] at hok
        obtain ⟨ha, hs⟩ := hok
        obtain ⟨k, hk⟩ := is_power_of_two_spec align hpow
        subst hk
        have h2 : (2:Nat) ^ 64 = 18446744073709551616 := by norm_num
        have hk64 : k ≤ 64 := by
          have hlt : (2:Nat) ^ k < 2 ^ 64 := by omega
          have := (Nat.pow_lt_pow_iff_right (by omega : 1 < 2)).mp hlt
          omega
        push_neg at hsz
        refine ⟨?_, ?_, hs.symm⟩
        · rw [← ha]
          exact land_notU64_mod (max_addr - image_size) k hk64
        · have hle : (max_addr - image_size) &&& notU64 (2 ^ k - 1) ≤
              max_addr - image_size := Nat.and_le_left
          have hms : (max_addr - min_addr) &&& notU64 (2 ^ k - 1) ≤
              max_addr - min_addr := Nat.and_le_left
          omega
    · rw [if_pos (by simp [hpow])] at hok
      simp at hok
  · intro hfalse
    unfold load_image_high
    rw [if_pos (by simp [hfalse])]
  · intro htrue hbig
    unfold load_image_high
    rw [if_neg (by simp [htrue]), if_pos (Or.inr hbig)]

/-- Witness for C7: loading an 8 KiB image below 1 MiB with 4 KiB
alignment places it at `0xFE000 = 1040384`. -/
theorem load_image_high_spec_witness :
    4096 < 18446744073709551616 ∧
    load_image_high 0 1048576 8192 4096 = .ok (1040384, 8192) ∧
    1040384 % 4096 = 0 ∧ 1040384 + 8192 ≤ 1048576 ∧ 8192 = 8192 := by
  have hok : load_image_high 0 1048576 8192 4096 = .ok (1040384, 8192) := by rfl
  have h := (load_image_high_spec 0 1048576 8192 4096 (by norm_num)).1
    1040384 8192 hok
  exact ⟨by norm_num, hok, h.1, h.2.1, h.2.2⟩

/-! ## C8: `Worker::fill_event_virtqueue`
(`devices/src/virtio/input/mod.rs`)

Modelled from the spec where the virtio plumbing is not under src/: the
queue `Writer` wraps the writable descriptor chain; `available_bytes` is
the remaining capacity, `write_obj` appends exactly one
`virtio_input_event` (8 bytes, guaranteed to fit because the loop checks
`available_bytes >= EVENT_SIZE` first) and `bytes_written` is the running
total.  The event source is the queue of pending events,
`pop_available_event` popping the head. -/

/-- `virtio_input_event`: little-endian `{type: u16, code: u16,
value: u32}`. -/
structure virtio_input_event where
  type_ : Nat
  code : Nat
  value : Nat
deriving DecidableEq, Repr

/-- `size_of::<virtio_input_event>()`: 2 + 2 + 4 bytes, no padding. -/
def EVENT_SIZE : Nat := 8

/-- The loop of `fill_event_virtqueue`: while at least `EVENT_SIZE` bytes
remain in the writer, pop an event and write it; returns
`writer.bytes_written`. -/
def fill_event_loop : List virtio_input_event → Nat → Nat → Nat
  | [], _, written => written
  | _ :: rest, available, written =>
    if EVENT_SIZE ≤ available then
      fill_event_loop rest (available - EVENT_SIZE) (written + EVENT_SIZE)
    else written

/-- `Worker::fill_event_virtqueue`: fill a descriptor chain with
`available` writable bytes from the pending `events`, returning the number
of bytes written. -/
def fill_event_virtqueue (events : List virtio_input_event) (available : Nat) : Nat :=
  fill_event_loop events available 0

theorem fill_event_loop_mod (events : List virtio_input_event) :
    ∀ available written, written % 8 = 0 →
      fill_event_loop events available written % 8 = 0 := by
  induction events with
  | nil =>
    intro available written hw
    simpa [fill_event_loop] using hw
  | cons e rest ih =>
    intro available written hw
    rw [fill_event_loop]
    by_cases hcap : EVENT_SIZE ≤ available
    · rw [if_pos hcap]
      exact ih (available - EVENT_SIZE) (written + EVENT_SIZE) (by unfold EVENT_SIZE; omega)
    · rw [if_neg hcap]
      exact hw

/-- C8: the byte count returned by `fill_event_virtqueue` is always a
multiple of 8, the size of one `{type: u16, code: u16, value: u32}` event
record — no partial record is ever written. -/
theorem fill_event_virtqueue_multiple_of_record (events : List virtio_input_event)
    (available : Nat) : fill_event_virtqueue events available % 8 = 0 :=
  fill_event_loop_mod events available 0 rfl

/-! ## C9: `virtio_input_bitmap::from_bits`
(`devices/src/virtio/input/mod.rs`)

The 128-byte bitmap is represented as its byte-indexed contents
`Nat → Nat`; positions `≥ 128` are outside the array and stay 0. -/

/-- One iteration of the `from_bits` loop: set bit `idx % 8` of byte
`idx / 8` when `idx / 8 < 128` (the `byte_pos < ret.len()` check), else
drop the index (the Rust code only logs it). -/
def from_bits_step (bitmap : Nat → Nat) (idx : Nat) : Nat → Nat :=
  if idx / 8 < 128 then
    fun byte => if byte = idx / 8 then bitmap byte ||| (1 <<< (idx % 8)) else bitmap byte
  else bitmap

/-- `virtio_input_bitmap::from_bits`: build the 128-byte bitmap from a
list of bit indices. -/
def from_bits (set_indices : List Nat) : Nat → Nat :=
  set_indices.foldl from_bits_step (fun _ => 0)

theorem from_bits_step_testBit (bitmap : Nat → Nat) (b idx : Nat) :
    (from_bits_step bitmap b (idx / 8)).testBit (idx % 8) =
      ((bitmap (idx / 8)).testBit (idx % 8) || (idx = b ∧ idx < 1024 : Bool)) := by
  unfold from_bits_step
  by_cases hb : b / 8 < 128
  · rw [if_pos hb]
    by_cases heq : idx / 8 = b / 8
    · rw [if_pos heq]
      rw [Nat.testBit_or]
      by_cases hbit : idx % 8 = b % 8
      · have hidx : idx = b := by omega
        subst hidx
        have h1 : Nat.testBit (1 <<< (idx % 8)) (idx % 8) = true := by
          rw [Nat.one_shiftLeft]
          exact Nat.testBit_two_pow_self
        have h2 : idx < 1024 := by omega
        simp [h1, h2]
      · have h1 : Nat.testBit (1 <<< (b % 8)) (idx % 8) = false := by
          rw [Nat.one_shiftLeft]
          exact Nat.testBit_two_pow_of_ne (fun hc => hbit hc.symm)
        have h2 : ¬ idx = b := by omega
        simp [h1, h2]
    · rw [if_neg heq]
      have h2 : ¬ idx = b := by omega
      simp [h2]
  · rw [if_neg hb]
    have h2 : ¬ (idx = b ∧ idx < 1024) := by
      rintro ⟨rfl, hlt⟩
      omega
    simp [h2]

theorem from_bits_fold_testBit (l : List Nat) :
    ∀ (acc : Nat → Nat) (idx : Nat),
      ((l.foldl from_bits_step acc) (idx / 8)).testBit (idx % 8) =
        ((acc (idx / 8)).testBit (idx % 8) || (idx ∈ l ∧ idx < 1024 : Bool)) := by
  induction l with
  | nil =>
    intro acc idx
    simp
  | cons b t ih =>
    intro acc idx
    rw [List.foldl_cons, ih (from_bits_step acc b) idx, from_bits_step_testBit]
    cases hx : (acc (idx / 8)).testBit (idx % 8) <;>
      by_cases h1 : idx = b <;> by_cases h2 : idx < 1024 <;> by_cases h3 : idx ∈ t <;>
      simp [h1, h2, h3, List.mem_cons, Bool.or_assoc]

theorem from_bits_fold_high_bytes (l : List Nat) :
    ∀ (acc : Nat → Nat) (j : Nat), 128 ≤ j → (∀ j', 128 ≤ j' → acc j' = 0) →
      (l.foldl from_bits_step acc) j = 0 := by
  induction l with
  | nil =>
    intro acc j hj hacc
    exact hacc j hj
  | cons b t ih =>
    intro acc j hj hacc
    rw [List.foldl_cons]
    apply ih _ j hj
    intro j' hj'
    unfold from_bits_step
    by_cases hb : b / 8 < 128
    · rw [if_pos hb, if_neg (by omega)]
      exact hacc j' hj'
    · rw [if_neg hb]
      exact hacc j' hj'

/-- C9: `from_bits` returns a 128-byte bitmap in which bit `idx` (bit
`idx % 8` of byte `idx / 8`) is set iff `idx` occurs in the input list and
`idx < 1024`; indices `≥ 1024` are dropped and set no bit, and no byte
outside the 128-byte array is ever touched. -/
theorem from_bits_set_iff (bits : List Nat) (idx : Nat) :
    ((from_bits bits (idx / 8)).testBit (idx % 8) = true ↔
      idx ∈ bits ∧ idx < 1024) ∧
    (∀ j, 128 ≤ j → from_bits bits j = 0) := by
  constructor
  · unfold from_bits
    rw [from_bits_fold_testBit bits (fun _ => 0) idx]
    simp
  · intro j hj
    unfold from_bits
    exact from_bits_fold_high_bytes bits _ j hj (fun _ _ => rfl)

/-! ## C10: `VirtioInputConfig::write`
(`devices/src/virtio/input/mod.rs`)

Bytes are `Nat` values `< 256`; `Le16`/`Le32` fields serialise
little-endian.  The `BTreeMap`s are embedded as association lists. -/

/-- `virtio_input_device_ids`: four `Le16` fields. -/
structure virtio_input_device_ids where
  bustype : Nat
  vendor : Nat
  product : Nat
  version : Nat
deriving DecidableEq, Repr

/-- `virtio_input_absinfo`: four `Le32` fields. -/
structure virtio_input_absinfo where
  min : Nat
  max : Nat
  fuzz : Nat
  flat : Nat
deriving DecidableEq, Repr

def le16_bytes (n : Nat) : List Nat := [n % 256, n / 256 % 256]

def le32_bytes (n : Nat) : List Nat :=
  [n % 256, n / 256 % 256, n / 65536 % 256, n / 16777216 % 256]

/-- `virtio_input_device_ids::as_slice`: the struct's 8-byte layout. -/
def device_ids_bytes (d : virtio_input_device_ids) : List Nat :=
  le16_bytes d.bustype ++ le16_bytes d.vendor ++ le16_bytes d.product ++
    le16_bytes d.version

/-- `virtio_input_absinfo::as_slice`: the struct's 16-byte layout. -/
def absinfo_bytes (a : virtio_input_absinfo) : List Nat :=
  le32_bytes a.min ++ le32_bytes a.max ++ le32_bytes a.fuzz ++ le32_bytes a.flat

/-- `virtio_input_config`: the 136-byte virtio config window
`{select, subsel, size, reserved[5], payload[128]}`. -/
structure virtio_input_config where
  select : Nat
  subsel : Nat
  size : Nat
  reserved : List Nat
  payload : List Nat
deriving DecidableEq, Repr

/-- `virtio_input_config::new()`: all zeroes. -/
def virtio_input_config_new : virtio_input_config :=
  ⟨0, 0, 0, List.replicate 5 0, List.replicate 128 0⟩

/-- `set_payload_slice`: write the slice at the start of the 128-byte
payload (clamped to 128 bytes, the rest of the payload unchanged) and set
`size` to the number of bytes written. -/
def set_payload_slice (cfg : virtio_input_config) (slice : List Nat) :
    virtio_input_config :=
  { cfg with
      size := min slice.length 128
      payload := slice.take 128 ++ cfg.payload.drop (min slice.length 128) }

/-- A 128-byte bitmap (byte-indexed contents, as for `from_bits`) as a
byte list. -/
def bitmap_bytes (bm : Nat → Nat) : List Nat := (List.range 128).map bm

/-- `virtio_input_bitmap::min_size`: one past the last nonzero byte. -/
def bitmap_min_size (bm : Nat → Nat) : Nat :=
  (List.range 128).foldl (fun acc i => if bm i ≠ 0 then i + 1 else acc) 0

/-- `set_payload_bitmap`: copy the whole 128-byte bitmap, `size` from
`min_size`. -/
def set_payload_bitmap (cfg : virtio_input_config) (bm : Nat → Nat) :
    virtio_input_config :=
  { cfg with size := bitmap_min_size bm, payload := bitmap_bytes bm }

def set_absinfo (cfg : virtio_input_config) (a : virtio_input_absinfo) :
    virtio_input_config :=
  set_payload_slice cfg (absinfo_bytes a)

def set_device_ids (cfg : virtio_input_config) (d : virtio_input_device_ids) :
    virtio_input_config :=
  set_payload_slice cfg (device_ids_bytes d)

-- Modelled from the spec: the `VIRTIO_INPUT_CFG_*` select values live in
-- `devices/src/virtio/input/constants.rs`, which is not under src/; the
-- spec (§6) gives them explicitly.
def VIRTIO_INPUT_CFG_ID_NAME : Nat := 0x01
def VIRTIO_INPUT_CFG_ID_SERIAL : Nat := 0x02
def VIRTIO_INPUT_CFG_ID_DEVIDS : Nat := 0x03
def VIRTIO_INPUT_CFG_PROP_BITS : Nat := 0x11
def VIRTIO_INPUT_CFG_EV_BITS : Nat := 0x12
def VIRTIO_INPUT_CFG_ABS_INFO : Nat := 0x20

/-- `VirtioInputConfig`: the captured evdev state plus the guest-written
`select`/`subsel` registers. -/
structure VirtioInputConfig where
  select : Nat
  subsel : Nat
  device_ids : virtio_input_device_ids
  name : List Nat
  serial_name : List Nat
  properties : Nat → Nat
  supported_events : List (Nat × (Nat → Nat))
  axis_info : List (Nat × virtio_input_absinfo)

/-- `VirtioInputConfig::build_config_memory`: compute the 136-byte config
window from the captured capabilities and the current
`select`/`subsel`. -/
def VirtioInputConfig.build_config_memory (c : VirtioInputConfig) :
    virtio_input_config :=
  let cfg := { virtio_input_config_new with select := c.select, subsel := c.subsel }
  if c.select = VIRTIO_INPUT_CFG_ID_NAME then
    set_payload_slice cfg c.name
  else if c.select = VIRTIO_INPUT_CFG_ID_SERIAL then
    set_payload_slice cfg c.serial_name
  else if c.select = VIRTIO_INPUT_CFG_PROP_BITS then
    set_payload_bitmap cfg c.properties
  else if c.select = VIRTIO_INPUT_CFG_EV_BITS then
    if c.subsel = 0 then
      set_payload_bitmap cfg (from_bits (c.supported_events.map Prod.fst))
    else
      match c.supported_events.lookup c.subsel with
      | some supported_codes => set_payload_bitmap cfg supported_codes
      | none => cfg
  else if c.select = VIRTIO_INPUT_CFG_ABS_INFO then
    match c.axis_info.lookup c.subsel with
    | some absinfo => set_absinfo cfg absinfo
    | none => cfg
  else if c.select = VIRTIO_INPUT_CFG_ID_DEVIDS then
    set_device_ids cfg c.device_ids
  else cfg

/-- The 136-byte image of a `virtio_input_config` (`as_slice`). -/
def config_bytes (cfg : virtio_input_config) : List Nat :=
  cfg.select :: cfg.subsel :: cfg.size :: (cfg.reserved ++ cfg.payload)

/-- Modelled from the spec: `copy_config` lives in
`devices/src/virtio/mod.rs`, which is not under src/; per the spec's
config-space access description it copies
`min(dst.len - dst_offset, src.len - src_offset)` bytes from
`src[src_offset..]` into `dst[dst_offset..]`, copying nothing when an
offset is out of range. -/
def copy_config (dst : List Nat) (dst_offset : Nat) (src : List Nat)
    (src_offset : Nat) : List Nat :=
  (List.range dst.length).map (fun i =>
    if dst_offset ≤ i ∧ i - dst_offset + src_offset < src.length then
      src.getD (i - dst_offset + src_offset) 0
    else dst.getD i 0)

/-- `VirtioInputConfig::write`: materialise the config window, splice the
guest's bytes into it, and take back only `select` (byte 0) and `subsel`
(byte 1). -/
def VirtioInputConfig.write (c : VirtioInputConfig) (offset : Nat)
    (data : List Nat) : VirtioInputConfig :=
  let bytes := copy_config (config_bytes c.build_config_memory) offset data 0
  { c with select := bytes.getD 0 0, subsel := bytes.getD 1 0 }

/-- C10: a config-space write changes only the `select` and `subsel`
fields; the captured `device_ids`, `name`, `serial_name`, `properties`,
`supported_events` and `axis_info` are unchanged by every write. -/
theorem virtio_input_config_write_frame (c : VirtioInputConfig)
    (offset : Nat) (data : List Nat) :
    (c.write offset data).device_ids = c.device_ids ∧
    (c.write offset data).name = c.name ∧
    (c.write offset data).serial_name = c.serial_name ∧
    (c.write offset data).properties = c.properties ∧
    (c.write offset data).supported_events = c.supported_events ∧
    (c.write offset data).axis_info = c.axis_info :=
  ⟨rfl, rfl, rfl, rfl, rfl, rfl⟩
